import Mathlib

/-!
Verification development for the Core Collapse round/phase engine.

The definitions below are shallow embeddings of the game-logic sources:
JavaScript numbers are modelled as rationals, tagged string unions as
inductives, and the stateful React callbacks as pure state-passing
functions.  Sources embedded here:

* `src/game/config.ts` — balance configuration, `getItemEffect`,
  `mergeBalanceConfig`, the tier multiplier tables and `roundHundred`;
* `src/game/actions/items.ts` — `applyItem`;
* `src/game/rng.ts` — `mulberry32` / `createRng`;
* `src/game/setup.ts` — `createInitialRound` (hardcoded-offset variant);
* `src/App.tsx` and the root `CoreCollapseGame` component —
  `computeGate`, `createInitialRound`, `startMinigame`,
  `handleMinigameComplete`, `resolveMaintenance`, `restartGame`.
-/

namespace CoreOverload

/-- Item identifiers, from `type ItemId = "BOOST" | "VENT" | "EQUALIZER"`. -/
inductive ItemId
  | BOOST
  | VENT
  | EQUALIZER
deriving DecidableEq, Repr

/-- Minigame outcome tiers.  The engine sources spell these
`"fail" | "partial" | "success"`; the constructor for the middle tier is
named `partialT` here because `partial` is a Lean keyword. -/
inductive MinigameTier
  | fail
  | partialT
  | success
deriving DecidableEq, Repr

/-- Player jobs, from `type Job = "PowerEngineer" | "CoolantTech" | "FluxSpecialist"`. -/
inductive Job
  | PowerEngineer
  | CoolantTech
  | FluxSpecialist
deriving DecidableEq, Repr

/-- Balance entry for BOOST and VENT: `{ deltaTotal: number; deltaShip: number }`. -/
structure ItemBalance where
  deltaTotal : ℚ
  deltaShip : ℚ
deriving DecidableEq, Repr

/-- Balance entry for EQUALIZER: `{ belowGate; otherwise; deltaShip }`. -/
structure EqualizerBalance where
  belowGate : ℚ
  otherwise : ℚ
  deltaShip : ℚ
deriving DecidableEq, Repr

/-- The `items` block of the balance configuration. -/
structure ItemsBalance where
  BOOST : ItemBalance
  VENT : ItemBalance
  EQUALIZER : EqualizerBalance
deriving DecidableEq, Repr

/-- The balance configuration object (`BalanceConfig` in `src/game/config.ts`).
Counting fields (`roundsMax`, `deckSize`, `handSize`) are naturals; the
remaining numeric fields are rationals. -/
structure BalanceConfig where
  roundsMax : ℕ
  overloadLoss : ℚ
  failLoss : ℚ
  allSuccessGain : ℚ
  deckSize : ℕ
  handSize : ℕ
  gateBasePerPlayer : ℚ
  gateOffsets : List ℚ
  items : ItemsBalance
deriving DecidableEq, Repr

/-- The hardcoded `defaultBalanceConfig` from `src/game/config.ts`. -/
def defaultBalanceConfig : BalanceConfig :=
  { roundsMax := 6
    overloadLoss := 0.3
    failLoss := 0.1
    allSuccessGain := 0.05
    deckSize := 9
    handSize := 5
    gateBasePerPlayer := 4
    gateOffsets := [-2, -1, 0, 1, 2]
    items :=
      { BOOST := { deltaTotal := 3, deltaShip := 0 }
        VENT := { deltaTotal := -3, deltaShip := 0.05 }
        EQUALIZER := { belowGate := 2, otherwise := -2, deltaShip := 0 } } }

/-- The tier string delivered by every registered minigame component
(the `onComplete`/`MinigameCard` handlers and `src/game/types.ts`'s
lowercase `MinigameTier` union): `"fail"`, `"partial"`, `"success"`. -/
def minigameTierString : MinigameTier → String
  | .fail => "fail"
  | .partialT => "partial"
  | .success => "success"

/-- The uppercase tier vocabulary of the other `types.ts` snapshot
(`MinigameTier = "FAIL" | "PARTIAL" | "SUCCESS"`), which is the key set
of the multiplier tables in `src/game/config.ts`. -/
def tableTierString : MinigameTier → String
  | .fail => "FAIL"
  | .partialT => "PARTIAL"
  | .success => "SUCCESS"

/-- The `ITEM_TIER_MULTIPLIERS` table from `src/game/config.ts`, as the
string-keyed record it is at runtime: its keys are the literal strings
`"SUCCESS"`, `"PARTIAL"`, `"FAIL"`, and any other key misses (`none`,
JavaScript `undefined`). -/
def ITEM_TIER_MULTIPLIERS : ItemId → String → Option ℚ
  | .BOOST, "SUCCESS" => some 1
  | .BOOST, "PARTIAL" => some (1 / 3)
  | .BOOST, "FAIL" => some 0
  | .VENT, "SUCCESS" => some 1
  | .VENT, "PARTIAL" => some (2 / 3)
  | .VENT, "FAIL" => some (1 / 3)
  | .EQUALIZER, "SUCCESS" => some 1
  | .EQUALIZER, "PARTIAL" => some 0.5
  | .EQUALIZER, "FAIL" => some 0
  | _, _ => none

/-- The `ITEM_SHIP_MULTIPLIERS` table from `src/game/config.ts`,
string-keyed like `ITEM_TIER_MULTIPLIERS`. -/
def ITEM_SHIP_MULTIPLIERS : ItemId → String → Option ℚ
  | .BOOST, "SUCCESS" => some 0
  | .BOOST, "PARTIAL" => some 0
  | .BOOST, "FAIL" => some 0
  | .VENT, "SUCCESS" => some 1
  | .VENT, "PARTIAL" => some 0
  | .VENT, "FAIL" => some (-0.4)
  | .EQUALIZER, "SUCCESS" => some 0
  | .EQUALIZER, "PARTIAL" => some 0
  | .EQUALIZER, "FAIL" => some 0
  | _, _ => none

/-- JavaScript `Math.round(value * 100) / 100` (the `roundHundred` helper).
`Math.round` rounds half-values toward positive infinity, which is
`⌊x + 1/2⌋` on the rationals. -/
def roundHundred (value : ℚ) : ℚ :=
  (⌊value * 100 + 1 / 2⌋ : ℚ) / 100

/-- The `getItemEffect` function from `src/game/config.ts` (lines 111-168):
base magnitude from the balance entry, scaled by the string-keyed tier
multiplier tables (`multipliers?.[tier] ?? 0`, so a key miss scales by
zero), each product rounded to two decimals.  Returns
`(deltaTotal, deltaShipHealth01)`. -/
def getItemEffect (balance : BalanceConfig) (itemId : ItemId)
    (tier : String) (isBelowGate : Bool) : ℚ × ℚ :=
  let tierMultiplier := (ITEM_TIER_MULTIPLIERS itemId tier).getD 0
  let shipMultiplier := (ITEM_SHIP_MULTIPLIERS itemId tier).getD 0
  match itemId with
  | .BOOST =>
      (roundHundred (balance.items.BOOST.deltaTotal * tierMultiplier),
       roundHundred (balance.items.BOOST.deltaShip * shipMultiplier))
  | .VENT =>
      (roundHundred (balance.items.VENT.deltaTotal * tierMultiplier),
       roundHundred (balance.items.VENT.deltaShip * shipMultiplier))
  | .EQUALIZER =>
      let base :=
        if isBelowGate then balance.items.EQUALIZER.belowGate
        else balance.items.EQUALIZER.otherwise
      (roundHundred (base * tierMultiplier),
       roundHundred (balance.items.EQUALIZER.deltaShip * shipMultiplier))

/-- The `applyItem` function from `src/game/actions/items.ts`: tier-free
effect computation used by `App.tsx` before the minigame runs.  `ctx`
models the optional `context.isBelowGate`; when absent the flag is
computed from `round.totalAfterItems < round.gate`.  Returns
`(deltaTotal, deltaShip)`. -/
def applyItem (balance : BalanceConfig) (totalAfterItems gate : ℚ)
    (itemId : ItemId) (ctx : Option Bool) : ℚ × ℚ :=
  let isBelowGate := ctx.getD (decide (totalAfterItems < gate))
  match itemId with
  | .BOOST => (balance.items.BOOST.deltaTotal, balance.items.BOOST.deltaShip)
  | .VENT => (balance.items.VENT.deltaTotal, balance.items.VENT.deltaShip)
  | .EQUALIZER =>
      ((if isBelowGate then balance.items.EQUALIZER.belowGate
        else balance.items.EQUALIZER.otherwise),
       balance.items.EQUALIZER.deltaShip)

/-- JavaScript `Math.max(0, Math.min(1, value))` (the `clamp01` helper). -/
def clamp01 (value : ℚ) : ℚ := max 0 (min 1 value)

/-- Round outcomes, from `type RoundOutcome = "Clear" | "Fail" | "Overload" | null`
(the `null` case is the `Option.none` of the `outcome` field below). -/
inductive RoundOutcome
  | Clear
  | Fail
  | Overload
deriving DecidableEq, Repr

/-- Game phases, from `type Phase` in `src/game/types.ts`. -/
inductive Phase
  | Lobby
  | RoleReveal
  | Plan
  | Ignition
  | Engage
  | MiniGame
  | Maintenance
  | GameOver
deriving DecidableEq, Repr

/-- One resolved minigame activation (`MinigameResult` in `src/game/types.ts`). -/
structure MinigameResult where
  playerId : String
  job : Job
  itemId : ItemId
  tier : MinigameTier
  score01 : ℚ
  deltaTotal : ℚ
  deltaShipHealth01 : ℚ
deriving DecidableEq, Repr

/-- Per-round state (`RoundState` in `src/game/types.ts`).  `cardsPlayed`
is the per-player card assignment in seat order (`none` = not yet chosen). -/
structure RoundState where
  index : ℕ
  gate : ℚ
  cardsPlayed : List (Option ℚ)
  totalBeforeItems : ℚ
  totalAfterItems : ℚ
  reactorEnergy01 : ℚ
  outcome : Option RoundOutcome
  minigameResults : List MinigameResult
deriving DecidableEq, Repr

/-- The `computeGate` helper of the `CoreCollapseGame` component:
base-per-player times player count, plus the offset selected by the
1-based round index cycling through `gateOffsets` (falling back to the
default offsets when the configured list is empty).  Callers only pass
`index ≥ 1`; natural subtraction stands in for JavaScript `index - 1`. -/
def computeGate (balance : BalanceConfig) (index playerCount : ℕ) : ℚ :=
  let base := balance.gateBasePerPlayer * playerCount
  let offsets :=
    if balance.gateOffsets.length > 0 then balance.gateOffsets
    else defaultBalanceConfig.gateOffsets
  base + offsets.getD ((index - 1) % offsets.length) 0

/-- The `createInitialRound` function of the `CoreCollapseGame` component:
fresh round with a configured gate, all cards null, zeroed totals and an
empty results list. -/
def createInitialRound (balance : BalanceConfig) (index playerCount : ℕ) :
    RoundState :=
  { index := index
    gate := computeGate balance index playerCount
    cardsPlayed := List.replicate playerCount none
    totalBeforeItems := 0
    totalAfterItems := 0
    reactorEnergy01 := 0
    outcome := none
    minigameResults := [] }

/-- The `createInitialRound` function from `src/game/setup.ts` (App.tsx
variant), with the hardcoded per-player base 4 and offsets `[-2,-1,0,1,2]`. -/
def createInitialRoundApp (index playerCount : ℕ) : RoundState :=
  let GATE_OFFSETS : List ℚ := [-2, -1, 0, 1, 2]
  let baseGate : ℚ := (playerCount : ℚ) * 4
  let offset := GATE_OFFSETS.getD ((index - 1) % GATE_OFFSETS.length) 0
  { index := index
    gate := baseGate + offset
    cardsPlayed := List.replicate playerCount none
    totalBeforeItems := 0
    totalAfterItems := 0
    reactorEnergy01 := 0
    outcome := none
    minigameResults := [] }

/-- Shared tail of both `handleMinigameComplete` implementations: add the
result's total delta to `totalAfterItems`, append the result, and apply
the (clamped) ship-health delta.  Returns the updated round and ship health. -/
def applyMinigameResult (round : RoundState) (shipHealth01 : ℚ)
    (result : MinigameResult) : RoundState × ℚ :=
  ({ round with
      totalAfterItems := round.totalAfterItems + result.deltaTotal
      minigameResults := round.minigameResults ++ [result] },
   clamp01 (shipHealth01 + result.deltaShipHealth01))

/-- The pending effect captured by `App.tsx`'s `startMinigame` before the
minigame runs (`PendingItemEffect`). -/
structure PendingItemEffect where
  playerId : String
  itemId : ItemId
  deltaTotal : ℚ
  deltaShip : ℚ
deriving DecidableEq, Repr

/-- `App.tsx`'s `startMinigame` (lines 167-183): computes the item effect
via `applyItem` against the round's current running `totalAfterItems`,
passing `isBelowGate = totalAfterItems < gate` explicitly. -/
def startMinigameApp (balance : BalanceConfig) (round : RoundState)
    (playerId : String) (itemId : ItemId) : PendingItemEffect :=
  let effect := applyItem balance round.totalAfterItems round.gate itemId
    (some (decide (round.totalAfterItems < round.gate)))
  { playerId := playerId, itemId := itemId
    deltaTotal := effect.1, deltaShip := effect.2 }

/-- `App.tsx`'s `handleMinigameComplete` (lines 235-277, state updates
only): uses the pending effect when the player and item match, otherwise
the deltas carried by the raw result, then applies the adjusted result. -/
def handleMinigameCompleteApp (pending : Option PendingItemEffect)
    (round : RoundState) (shipHealth01 : ℚ) (result : MinigameResult) :
    RoundState × ℚ :=
  let fallbackDelta := result.deltaTotal
  let fallbackShip := result.deltaShipHealth01
  let effect : ℚ × ℚ :=
    match pending with
    | some p =>
        if p.playerId = result.playerId ∧ p.itemId = result.itemId then
          (p.deltaTotal, p.deltaShip)
        else (fallbackDelta, fallbackShip)
    | none => (fallbackDelta, fallbackShip)
  let adjustedResult :=
    { result with deltaTotal := effect.1, deltaShipHealth01 := effect.2 }
  applyMinigameResult round shipHealth01 adjustedResult

/-- The `CoreCollapseGame` component's `handleMinigameComplete`
(lines 396-423): resolves the effect through `getItemEffect` with the
tier the minigame delivered — the lowercase string `minigameTierString`
produces, which is not in the tables' uppercase key vocabulary —
evaluating `isBelowGate` against the round's current running
`totalAfterItems`. -/
def handleMinigameCompleteCC (balance : BalanceConfig) (round : RoundState)
    (shipHealth01 : ℚ) (playerId : String) (job : Job) (itemId : ItemId)
    (tier : MinigameTier) (score01 : ℚ) : RoundState × ℚ :=
  let effect := getItemEffect balance itemId (minigameTierString tier)
    (decide (round.totalAfterItems < round.gate))
  applyMinigameResult round shipHealth01
    { playerId := playerId, job := job, itemId := itemId, tier := tier
      score01 := score01, deltaTotal := effect.1
      deltaShipHealth01 := effect.2 }

/-- Persistent engine state owned by the round/phase engine: phase, round
counter, the fixed reactor limit, ship health, outcome counters, the
current round, and the player count. -/
structure EngineState where
  phase : Phase
  roundIndex : ℕ
  reactorLimit : ℚ
  shipHealth01 : ℚ
  overloads : ℕ
  clears : ℕ
  round : RoundState
  players : ℕ
deriving DecidableEq, Repr

/-- Outcome classification at Maintenance (both `resolveMaintenance`
variants, first three lines): overload has priority over clear. -/
def classifyOutcome (total reactorLimit gate : ℚ) : RoundOutcome :=
  if reactorLimit ≤ total then .Overload
  else if gate ≤ total then .Clear
  else .Fail

/-- `resolveMaintenance` (App.tsx lines 281-327 and the `CoreCollapseGame`
component lines 425-463; App.tsx hardcodes the default balance constants).
Classifies the outcome, applies the ship-health / counter bookkeeping,
records the outcome, and either ends the game or advances to a fresh
round and the Plan phase. -/
def resolveMaintenance (balance : BalanceConfig) (st : EngineState) :
    EngineState :=
  let total := st.round.totalAfterItems
  let outcome := classifyOutcome total st.reactorLimit st.round.gate
  let newShip :=
    match outcome with
    | .Overload => clamp01 (st.shipHealth01 - balance.overloadLoss)
    | .Fail => clamp01 (st.shipHealth01 - balance.failLoss)
    | .Clear =>
        if st.round.minigameResults.all (fun r => r.tier = .success) then
          clamp01 (st.shipHealth01 + balance.allSuccessGain)
        else st.shipHealth01
  let newOverloads := st.overloads + (if outcome = .Overload then 1 else 0)
  let newClears := st.clears + (if outcome = .Clear then 1 else 0)
  let st1 : EngineState :=
    { st with
        shipHealth01 := newShip
        overloads := newOverloads
        clears := newClears
        round := { st.round with outcome := some outcome } }
  if 2 ≤ newOverloads ∨ balance.roundsMax ≤ st.roundIndex then
    { st1 with phase := .GameOver }
  else
    { st1 with
        phase := .Plan
        roundIndex := st.roundIndex + 1
        round := createInitialRound balance (st.roundIndex + 1) st.players }

/-- `proceedFromPlan` (both variants, state updates only): all cards are
fixed, summed into both totals, and the energy ratio is the clamped
total-over-limit.  The card list scripts every player's (possibly
auto-filled) card. -/
def proceedFromPlan (st : EngineState) (cards : List ℚ) : EngineState :=
  let total := cards.sum
  { st with
      phase := .Ignition
      round :=
        { st.round with
            cardsPlayed := cards.map some
            totalBeforeItems := total
            totalAfterItems := total
            reactorEnergy01 := clamp01 (total / st.reactorLimit) } }

/-- Initial persistent state at game start (`App.tsx` `useState`
initializers and `restartGame`): reactor limit of 6 per player, full ship
health, zeroed counters, round 1. -/
def initialEngineState (balance : BalanceConfig) (playerCount : ℕ) :
    EngineState :=
  { phase := .Lobby
    roundIndex := 1
    reactorLimit := 6 * (playerCount : ℚ)
    shipHealth01 := 1
    overloads := 0
    clears := 0
    round := createInitialRound balance 1 playerCount
    players := playerCount }

/-- Engine events that mutate the persistent state (the dispatch surface
restricted to the state-changing arms). -/
inductive EngineEvent
  | planLock (cards : List ℚ)
  | minigameComplete (result : MinigameResult)
  | maintenanceResolve
  | restart
deriving Repr

/-- One dispatch step of the engine. -/
def stepEngine (balance : BalanceConfig) (st : EngineState) :
    EngineEvent → EngineState
  | .planLock cards => proceedFromPlan st cards
  | .minigameComplete result =>
      let rs := applyMinigameResult st.round st.shipHealth01 result
      { st with round := rs.1, shipHealth01 := rs.2 }
  | .maintenanceResolve => resolveMaintenance balance st
  | .restart => initialEngineState balance st.players

/-- Run a scripted event sequence from the initial state. -/
def runEngine (balance : BalanceConfig) (playerCount : ℕ)
    (events : List EngineEvent) : EngineState :=
  events.foldl (stepEngine balance) (initialEngineState balance playerCount)

/-- All engine-state snapshots along a scripted run (initial state first). -/
def engineTrace (balance : BalanceConfig) (playerCount : ℕ)
    (events : List EngineEvent) : List EngineState :=
  events.scanl (stepEngine balance) (initialEngineState balance playerCount)

/-- Initial internal state of `mulberry32` / `createRng` from
`src/game/rng.ts`: `state = seed >>> 0` (modelled as reduction modulo
2^32 for natural seeds), replaced by `0x6d2b79f5` when zero to avoid the
zero-lock state. -/
def mulberryInit (seed : ℕ) : ℕ :=
  let state := seed % 4294967296
  if state = 0 then 0x6d2b79f5 else state

/-- The state advance of `mulberry32.next`:
`state = (state + 0x6d2b79f5) | 0`, pattern-wise addition modulo 2^32. -/
def mulberryStep (state : ℕ) : ℕ :=
  (state + 0x6d2b79f5) % 4294967296

/-- The output scrambling of `mulberry32.next` on the (already advanced)
state, modelled on unsigned 32-bit patterns:
`t = Math.imul(state ^ (state >>> 15), 1 | state)`;
`t = (t + Math.imul(t ^ (t >>> 7), 61 | t)) ^ t`;
result `(t ^ (t >>> 14)) >>> 0`.  `Math.imul` is multiplication modulo
2^32 on bit patterns, `>>> k` is division by `2 ^ k`, and `|`/`^` are
bitwise or/xor. -/
def mulberryOutput (state : ℕ) : ℕ :=
  let t1 := (Nat.xor state (state / 32768) * Nat.lor 1 state) % 4294967296
  let t2 := Nat.xor
    ((t1 + Nat.xor t1 (t1 / 128) * Nat.lor 61 t1 % 4294967296) % 4294967296)
    t1
  Nat.xor t2 (t2 / 16384)

/-- Internal generator state after `n` calls to `next` on a generator
created from `seed`. -/
def mulberryStateAfter (seed : ℕ) : ℕ → ℕ
  | 0 => mulberryInit seed
  | n + 1 => mulberryStep (mulberryStateAfter seed n)

/-- The value returned by the `(n+1)`-st call to `next` (0-indexed
stream position `n`): the scrambled advanced state divided by 2^32. -/
def mulberryValue (seed n : ℕ) : ℚ :=
  (mulberryOutput (mulberryStateAfter seed (n + 1)) : ℚ) / 4294967296

/-- First `count` values of the stream produced by a generator created
from `seed` (`createRng` with a finite numeric seed). -/
def rngSequence (seed count : ℕ) : List ℚ :=
  (List.range count).map (mulberryValue seed)

/-- Dynamically-typed JavaScript/JSON values, as far as the balance
override merging can observe them: finite numbers, non-finite numbers
(`NaN`/infinities), strings, booleans, null, and arrays. -/
inductive JSVal
  | num (q : ℚ)
  | nan
  | str (s : String)
  | boolV (b : Bool)
  | nullV
  | arr (xs : List JSVal)

/-- The `typeof n === "number" && Number.isFinite(n)` predicate used by
`mergeBalanceConfig`'s `gateOffsets` filter. -/
def isFiniteNumber : JSVal → Bool
  | .num _ => true
  | _ => false

/-- JSON-level override for a BOOST/VENT item entry (`none` = key absent). -/
structure IncomingItemBalance where
  deltaTotal : Option JSVal
  deltaShip : Option JSVal

/-- JSON-level override for the EQUALIZER entry (`none` = key absent). -/
structure IncomingEqualizerBalance where
  belowGate : Option JSVal
  otherwise : Option JSVal
  deltaShip : Option JSVal

/-- JSON-level override for the `items` block (`none` = key absent). -/
structure IncomingItems where
  BOOST : Option IncomingItemBalance
  VENT : Option IncomingItemBalance
  EQUALIZER : Option IncomingEqualizerBalance

/-- A partial balance-configuration override as parsed from JSON: each
schema field is either absent or holds an arbitrary (possibly
malformed) JSON value. -/
structure IncomingBalanceConfig where
  roundsMax : Option JSVal
  overloadLoss : Option JSVal
  failLoss : Option JSVal
  allSuccessGain : Option JSVal
  deckSize : Option JSVal
  handSize : Option JSVal
  gateBasePerPlayer : Option JSVal
  gateOffsets : Option JSVal
  items : Option IncomingItems

/-- The empty override (no keys present). -/
def emptyIncoming : IncomingBalanceConfig :=
  { roundsMax := none, overloadLoss := none, failLoss := none
    allSuccessGain := none, deckSize := none, handSize := none
    gateBasePerPlayer := none, gateOffsets := none, items := none }

/-- The merged configuration object at the JavaScript level: every field
holds whatever dynamic value the merge produced. -/
structure JSBalanceConfig where
  roundsMax : JSVal
  overloadLoss : JSVal
  failLoss : JSVal
  allSuccessGain : JSVal
  deckSize : JSVal
  handSize : JSVal
  gateBasePerPlayer : JSVal
  gateOffsets : JSVal
  itemsBOOSTdeltaTotal : JSVal
  itemsBOOSTdeltaShip : JSVal
  itemsVENTdeltaTotal : JSVal
  itemsVENTdeltaShip : JSVal
  itemsEQUALIZERbelowGate : JSVal
  itemsEQUALIZERotherwise : JSVal
  itemsEQUALIZERdeltaShip : JSVal

/-- `defaultBalanceConfig` seen as a JavaScript object. -/
def defaultJSBalanceConfig : JSBalanceConfig :=
  { roundsMax := .num 6
    overloadLoss := .num 0.3
    failLoss := .num 0.1
    allSuccessGain := .num 0.05
    deckSize := .num 9
    handSize := .num 5
    gateBasePerPlayer := .num 4
    gateOffsets := .arr [.num (-2), .num (-1), .num 0, .num 1, .num 2]
    itemsBOOSTdeltaTotal := .num 3
    itemsBOOSTdeltaShip := .num 0
    itemsVENTdeltaTotal := .num (-3)
    itemsVENTdeltaShip := .num 0.05
    itemsEQUALIZERbelowGate := .num 2
    itemsEQUALIZERotherwise := .num (-2)
    itemsEQUALIZERdeltaShip := .num 0 }

/-- The `mergeBalanceConfig` function from `src/game/config.ts` (lines
79-93) for a JSON-object override: `{ ...defaults, ...incoming }` keeps
any present override value as-is (object spread performs no validation),
`gateOffsets` is the array filter over finite numbers when the override
value is an array and the full default otherwise, and each item entry is
spread field-by-field over its default. -/
def mergeBalanceConfig (incoming : IncomingBalanceConfig) : JSBalanceConfig :=
  let d := defaultJSBalanceConfig
  let boost := incoming.items.bind (fun i => i.BOOST)
  let vent := incoming.items.bind (fun i => i.VENT)
  let equalizer := incoming.items.bind (fun i => i.EQUALIZER)
  { roundsMax := incoming.roundsMax.getD d.roundsMax
    overloadLoss := incoming.overloadLoss.getD d.overloadLoss
    failLoss := incoming.failLoss.getD d.failLoss
    allSuccessGain := incoming.allSuccessGain.getD d.allSuccessGain
    deckSize := incoming.deckSize.getD d.deckSize
    handSize := incoming.handSize.getD d.handSize
    gateBasePerPlayer := incoming.gateBasePerPlayer.getD d.gateBasePerPlayer
    gateOffsets :=
      match incoming.gateOffsets with
      | some (.arr xs) => .arr (xs.filter isFiniteNumber)
      | some _ => d.gateOffsets
      | none => d.gateOffsets
    itemsBOOSTdeltaTotal :=
      ((boost.bind (fun b => b.deltaTotal)).getD d.itemsBOOSTdeltaTotal)
    itemsBOOSTdeltaShip :=
      ((boost.bind (fun b => b.deltaShip)).getD d.itemsBOOSTdeltaShip)
    itemsVENTdeltaTotal :=
      ((vent.bind (fun v => v.deltaTotal)).getD d.itemsVENTdeltaTotal)
    itemsVENTdeltaShip :=
      ((vent.bind (fun v => v.deltaShip)).getD d.itemsVENTdeltaShip)
    itemsEQUALIZERbelowGate :=
      ((equalizer.bind (fun e => e.belowGate)).getD d.itemsEQUALIZERbelowGate)
    itemsEQUALIZERotherwise :=
      ((equalizer.bind (fun e => e.otherwise)).getD d.itemsEQUALIZERotherwise)
    itemsEQUALIZERdeltaShip :=
      ((equalizer.bind (fun e => e.deltaShip)).getD d.itemsEQUALIZERdeltaShip) }

/-- Engage-phase round with a card total of 12 against gate 10 (the
reference scenario round before any item resolves). -/
def round12gate10 : RoundState :=
  { index := 1
    gate := 10
    cardsPlayed := [some 5, some 4, some 3]
    totalBeforeItems := 12
    totalAfterItems := 12
    reactorEnergy01 := clamp01 (12 / 18)
    outcome := none
    minigameResults := [] }

/-- Maintenance-phase state whose round total 20 meets both the reactor
limit 18 and the gate 10. -/
def stateOverload : EngineState :=
  { phase := .Maintenance
    roundIndex := 1
    reactorLimit := 18
    shipHealth01 := 1
    overloads := 0
    clears := 0
    round :=
      { index := 1
        gate := 10
        cardsPlayed := [some 9, some 6, some 5]
        totalBeforeItems := 20
        totalAfterItems := 20
        reactorEnergy01 := 1
        outcome := none
        minigameResults := [] }
    players := 3 }

/-- Maintenance-phase state with gate ≤ total < limit and no minigame
activations this round. -/
def stateClearNoItems : EngineState :=
  { phase := .Maintenance
    roundIndex := 2
    reactorLimit := 18
    shipHealth01 := 0.5
    overloads := 0
    clears := 0
    round :=
      { index := 2
        gate := 11
        cardsPlayed := [some 4, some 4, some 4]
        totalBeforeItems := 12
        totalAfterItems := 12
        reactorEnergy01 := clamp01 (12 / 18)
        outcome := none
        minigameResults := [] }
    players := 3 }

/-- Maintenance-phase state at round index 6 with no overloads: the
round-count termination case. -/
def stateRoundSix : EngineState :=
  { phase := .Maintenance
    roundIndex := 6
    reactorLimit := 18
    shipHealth01 := 1
    overloads := 0
    clears := 4
    round :=
      { index := 6
        gate := 10
        cardsPlayed := [some 2, some 2, some 2]
        totalBeforeItems := 6
        totalAfterItems := 6
        reactorEnergy01 := clamp01 (6 / 18)
        outcome := none
        minigameResults := [] }
    players := 3 }

/-- Reference scenario, step 0: fresh 3-player game (reactor limit 18,
round-1 gate 10, full ship health). -/
def scenarioState0 : EngineState := initialEngineState defaultBalanceConfig 3

/-- Reference scenario, step 1: Plan locks with cards 5, 4, 3 (total 12). -/
def scenarioState1 : EngineState :=
  stepEngine defaultBalanceConfig scenarioState0 (.planLock [5, 4, 3])

/-- Reference scenario: the pending effect captured when the local player
activates VENT (computed by `startMinigame` before the minigame runs). -/
def scenarioPending : PendingItemEffect :=
  startMinigameApp defaultBalanceConfig scenarioState1.round "p1" .VENT

/-- Reference scenario: the raw minigame completion for the VENT
activation (tier `success`; the minigame components pass zero deltas). -/
def scenarioRawResult : MinigameResult :=
  { playerId := "p1", job := .CoolantTech, itemId := .VENT
    tier := .success, score01 := 1, deltaTotal := 0, deltaShipHealth01 := 0 }

/-- Reference scenario, step 2: state after the VENT minigame resolves
through `App.tsx`'s `handleMinigameComplete`. -/
def scenarioState2 : EngineState :=
  let rs := handleMinigameCompleteApp (some scenarioPending)
    scenarioState1.round scenarioState1.shipHealth01 scenarioRawResult
  { scenarioState1 with phase := .Maintenance, round := rs.1, shipHealth01 := rs.2 }

/-- Reference scenario, step 3: state after Maintenance resolution. -/
def scenarioFinal : EngineState :=
  resolveMaintenance defaultBalanceConfig scenarioState2

/-- Engage-phase round sitting at total 9 against gate 10 (below the gate). -/
def round9gate10 : RoundState :=
  { index := 1
    gate := 10
    cardsPlayed := [some 3, some 3, some 3]
    totalBeforeItems := 9
    totalAfterItems := 9
    reactorEnergy01 := clamp01 (9 / 18)
    outcome := none
    minigameResults := [] }

/-- The same round after a prior item activation already raised
`totalAfterItems` from 9 to 11. -/
def round11gate10 : RoundState :=
  (applyMinigameResult round9gate10 1
    { playerId := "p3", job := .FluxSpecialist, itemId := .EQUALIZER
      tier := .success, score01 := 1, deltaTotal := 2
      deltaShipHealth01 := 0 }).1

/-- Malformed partial override: a string where `roundsMax` expects a
number, and a `gateOffsets` array containing a non-number entry. -/
def malformedIncoming : IncomingBalanceConfig :=
  { emptyIncoming with
      roundsMax := some (.str "banana")
      gateOffsets := some (.arr [.num 7, .str "x"]) }

/-- Clamping never goes below 0. -/
theorem clamp01_nonneg (value : ℚ) : 0 ≤ clamp01 value :=
  le_max_left 0 (min 1 value)

/-- Clamping never goes above 1. -/
theorem clamp01_le_one (value : ℚ) : clamp01 value ≤ 1 :=
  max_le (by norm_num) (min_le_left 1 value)

/-- Rounding zero to two decimals gives zero. -/
theorem roundHundred_zero : roundHundred 0 = 0 := by
  norm_num [roundHundred]

/-- The lowercase tier strings delivered by the minigames are not in the
multiplier tables' uppercase key vocabulary: every runtime lookup misses. -/
theorem runtimeTier_lookup_miss (itemId : ItemId) (tier : MinigameTier) :
    ITEM_TIER_MULTIPLIERS itemId (minigameTierString tier) = none ∧
    ITEM_SHIP_MULTIPLIERS itemId (minigameTierString tier) = none := by
  cases itemId <;> cases tier <;> exact ⟨rfl, rfl⟩

/-- Consequently `getItemEffect` returns a zero effect for every tier a
minigame can actually deliver, whatever the balance configuration. -/
theorem getItemEffect_runtime_zero (balance : BalanceConfig)
    (itemId : ItemId) (tier : MinigameTier) (b : Bool) :
    getItemEffect balance itemId (minigameTierString tier) b = (0, 0) := by
  have hmiss := runtimeTier_lookup_miss itemId tier
  cases itemId <;>
    simp [getItemEffect, hmiss.1, hmiss.2, roundHundred_zero]

/-- Clamping a value already inside the unit interval is the identity. -/
theorem clamp01_of_mem (value : ℚ) (h0 : 0 ≤ value) (h1 : value ≤ 1) :
    clamp01 value = value := by
  unfold clamp01
  rw [min_eq_right h1, max_eq_right h0]

/-- Clamping a value at or above one yields one. -/
theorem clamp01_of_one_le (value : ℚ) (h : 1 ≤ value) :
    clamp01 value = 1 := by
  unfold clamp01
  rw [min_eq_left h, max_eq_right zero_le_one]

/-- Maintenance resolution updates ship health exactly as the outcome
branch dictates. -/
theorem resolveMaintenance_ship (balance : BalanceConfig) (st : EngineState) :
    (resolveMaintenance balance st).shipHealth01 =
      match classifyOutcome st.round.totalAfterItems st.reactorLimit
          st.round.gate with
      | .Overload => clamp01 (st.shipHealth01 - balance.overloadLoss)
      | .Fail => clamp01 (st.shipHealth01 - balance.failLoss)
      | .Clear =>
          if st.round.minigameResults.all (fun r => r.tier = .success) then
            clamp01 (st.shipHealth01 + balance.allSuccessGain)
          else st.shipHealth01 := by
  simp only [resolveMaintenance, apply_ite EngineState.shipHealth01]
  rw [ite_self]

/-- Maintenance resolution adds one overload exactly when the outcome is
an overload, and one clear exactly when the outcome is a clear. -/
theorem resolveMaintenance_counters (balance : BalanceConfig)
    (st : EngineState) :
    (resolveMaintenance balance st).overloads =
      st.overloads +
        (if classifyOutcome st.round.totalAfterItems st.reactorLimit
            st.round.gate = .Overload then 1 else 0) ∧
    (resolveMaintenance balance st).clears =
      st.clears +
        (if classifyOutcome st.round.totalAfterItems st.reactorLimit
            st.round.gate = .Clear then 1 else 0) := by
  constructor
  · simp only [resolveMaintenance, apply_ite EngineState.overloads]
    rw [ite_self]
  · simp only [resolveMaintenance, apply_ite EngineState.clears]
    rw [ite_self]

/-- Maintenance resolution ends in `GameOver` exactly when the updated
overload count reaches 2 or the round counter has reached the configured
maximum, and otherwise returns to `Plan`. -/
theorem resolveMaintenance_phase (balance : BalanceConfig)
    (st : EngineState) :
    (resolveMaintenance balance st).phase =
      if 2 ≤ st.overloads +
            (if classifyOutcome st.round.totalAfterItems st.reactorLimit
                st.round.gate = .Overload then 1 else 0) ∨
          balance.roundsMax ≤ st.roundIndex
      then Phase.GameOver else Phase.Plan := by
  simp only [resolveMaintenance, apply_ite EngineState.phase]

/-- Maintenance resolution keeps the round counter on game over and
increments it when play continues. -/
theorem resolveMaintenance_roundIndex (balance : BalanceConfig)
    (st : EngineState) :
    (resolveMaintenance balance st).roundIndex =
      if 2 ≤ st.overloads +
            (if classifyOutcome st.round.totalAfterItems st.reactorLimit
                st.round.gate = .Overload then 1 else 0) ∨
          balance.roundsMax ≤ st.roundIndex
      then st.roundIndex else st.roundIndex + 1 := by
  simp only [resolveMaintenance, apply_ite EngineState.roundIndex]

/-- Maintenance resolution constructs a fresh next round when play
continues. -/
theorem resolveMaintenance_round (balance : BalanceConfig)
    (st : EngineState) :
    (resolveMaintenance balance st).round =
      if 2 ≤ st.overloads +
            (if classifyOutcome st.round.totalAfterItems st.reactorLimit
                st.round.gate = .Overload then 1 else 0) ∨
          balance.roundsMax ≤ st.roundIndex
      then { st.round with
              outcome := some (classifyOutcome st.round.totalAfterItems
                st.reactorLimit st.round.gate) }
      else createInitialRound balance (st.roundIndex + 1) st.players := by
  simp only [resolveMaintenance, apply_ite EngineState.round]

/-- Every engine dispatch step keeps ship health inside the unit interval. -/
theorem stepEngine_ship_mem (balance : BalanceConfig) (st : EngineState)
    (ev : EngineEvent) (h0 : 0 ≤ st.shipHealth01) (h1 : st.shipHealth01 ≤ 1) :
    0 ≤ (stepEngine balance st ev).shipHealth01 ∧
      (stepEngine balance st ev).shipHealth01 ≤ 1 := by
  cases ev with
  | planLock cards =>
      exact ⟨h0, h1⟩
  | minigameComplete result =>
      exact ⟨clamp01_nonneg _, clamp01_le_one _⟩
  | maintenanceResolve =>
      show 0 ≤ (resolveMaintenance balance st).shipHealth01 ∧
        (resolveMaintenance balance st).shipHealth01 ≤ 1
      rw [resolveMaintenance_ship]
      cases hc : classifyOutcome st.round.totalAfterItems st.reactorLimit
          st.round.gate with
      | Clear =>
          dsimp only
          split
          · exact ⟨clamp01_nonneg _, clamp01_le_one _⟩
          · exact ⟨h0, h1⟩
      | Fail =>
          dsimp only
          exact ⟨clamp01_nonneg _, clamp01_le_one _⟩
      | Overload =>
          dsimp only
          exact ⟨clamp01_nonneg _, clamp01_le_one _⟩
  | restart =>
      refine ⟨?_, ?_⟩ <;> norm_num [stepEngine, initialEngineState]

/-- Ship health stays inside the unit interval along any event fold. -/
theorem foldl_ship_mem (balance : BalanceConfig) (events : List EngineEvent)
    (st : EngineState) (h0 : 0 ≤ st.shipHealth01) (h1 : st.shipHealth01 ≤ 1) :
    0 ≤ (events.foldl (stepEngine balance) st).shipHealth01 ∧
      (events.foldl (stepEngine balance) st).shipHealth01 ≤ 1 := by
  induction events generalizing st with
  | nil => exact ⟨h0, h1⟩
  | cons ev rest ih =>
      have hstep := stepEngine_ship_mem balance st ev h0 h1
      exact ih (stepEngine balance st ev) hstep.1 hstep.2

/-- C1.  The multiplier tables carry exactly the claimed per-tier values
on their own key vocabulary (`"SUCCESS"`/`"PARTIAL"`/`"FAIL"`:
BOOST 1, 1/3, 0; VENT 1, 2/3, 1/3; EQUALIZER 1, 0.5, 0; ship VENT
1, 0, -0.4; BOOST and EQUALIZER ship always 0, products rounded to two
decimals) — but every registered minigame delivers the lowercase tier
strings, on which the lookup misses and `?? 0` zeroes both multipliers:
`getItemEffect` returns `(0, 0)` for every deliverable tier, the
`CoreCollapseGame` pipeline leaves the round total unchanged (12 stays
12 for success, partial and fail alike), and the `App.tsx` pipeline
applies the tier-free pending `applyItem` effect (12 lands on 9 for
every tier).  The delta applied at minigame resolution is therefore
tier-independent in every variant, against the tables' evident intent. -/
theorem claimC1_tier_vocabulary_mismatch :
    (∀ (balance : BalanceConfig) (tier : MinigameTier) (b : Bool),
      getItemEffect balance .BOOST (tableTierString tier) b =
        (roundHundred (balance.items.BOOST.deltaTotal *
          (match tier with
           | .success => 1 | .partialT => 1 / 3 | .fail => 0)), 0) ∧
      getItemEffect balance .VENT (tableTierString tier) b =
        (roundHundred (balance.items.VENT.deltaTotal *
          (match tier with
           | .success => 1 | .partialT => 2 / 3 | .fail => 1 / 3)),
         roundHundred (balance.items.VENT.deltaShip *
          (match tier with
           | .success => 1 | .partialT => 0 | .fail => -0.4))) ∧
      getItemEffect balance .EQUALIZER (tableTierString tier) b =
        (roundHundred
          ((if b then balance.items.EQUALIZER.belowGate
            else balance.items.EQUALIZER.otherwise) *
           (match tier with
            | .success => 1 | .partialT => 0.5 | .fail => 0)), 0)) ∧
    (∀ (balance : BalanceConfig) (itemId : ItemId) (tier : MinigameTier)
        (b : Bool),
      getItemEffect balance itemId (minigameTierString tier) b = (0, 0)) ∧
    (∀ tier : MinigameTier,
      (handleMinigameCompleteCC defaultBalanceConfig round12gate10 1 "p2"
        .CoolantTech .VENT tier 1).1.totalAfterItems = 12) ∧
    (∀ tier : MinigameTier,
      (handleMinigameCompleteApp
        (some (startMinigameApp defaultBalanceConfig round12gate10 "p1"
          .VENT))
        round12gate10 1
        { playerId := "p1", job := .CoolantTech, itemId := .VENT
          tier := tier, score01 := 1, deltaTotal := 0
          deltaShipHealth01 := 0 }).1.totalAfterItems = 9) := by
  refine ⟨?_, getItemEffect_runtime_zero, ?_, ?_⟩
  · intro balance tier b
    cases tier <;>
      simp [getItemEffect, tableTierString, ITEM_TIER_MULTIPLIERS,
        ITEM_SHIP_MULTIPLIERS, roundHundred_zero]
  · intro tier
    simp only [handleMinigameCompleteCC, applyMinigameResult,
      getItemEffect_runtime_zero]
    norm_num [round12gate10]
  · intro tier
    norm_num [handleMinigameCompleteApp, startMinigameApp, applyItem,
      applyMinigameResult, round12gate10, defaultBalanceConfig]

/-- C2.  Whenever Maintenance resolution runs with
`totalAfterItems ≥ reactorLimit`, the outcome is `Overload` regardless of
the gate comparison, ship health drops by the configured `overloadLoss`
through the clamp, the overload counter increments by exactly one, and
the clear counter is untouched. -/
theorem claimC2_overload_precedence (balance : BalanceConfig)
    (st : EngineState)
    (h : st.reactorLimit ≤ st.round.totalAfterItems) :
    classifyOutcome st.round.totalAfterItems st.reactorLimit
      st.round.gate = .Overload ∧
    (resolveMaintenance balance st).shipHealth01 =
      clamp01 (st.shipHealth01 - balance.overloadLoss) ∧
    (resolveMaintenance balance st).overloads = st.overloads + 1 ∧
    (resolveMaintenance balance st).clears = st.clears := by
  have hout : classifyOutcome st.round.totalAfterItems st.reactorLimit
      st.round.gate = .Overload := by
    simp [classifyOutcome, h]
  refine ⟨hout, ?_, ?_, ?_⟩
  · rw [resolveMaintenance_ship, hout]
  · rw [(resolveMaintenance_counters balance st).1, hout]
    simp
  · rw [(resolveMaintenance_counters balance st).2, hout]
    simp

/-- C2 witness: a concrete Maintenance state whose total 20 meets both
the reactor limit 18 and the gate 10 still resolves as an overload. -/
theorem claimC2_witness :
    classifyOutcome stateOverload.round.totalAfterItems
      stateOverload.reactorLimit stateOverload.round.gate = .Overload ∧
    (resolveMaintenance defaultBalanceConfig stateOverload).shipHealth01 =
      clamp01 (stateOverload.shipHealth01 -
        defaultBalanceConfig.overloadLoss) ∧
    (resolveMaintenance defaultBalanceConfig stateOverload).overloads =
      stateOverload.overloads + 1 ∧
    (resolveMaintenance defaultBalanceConfig stateOverload).clears =
      stateOverload.clears :=
  claimC2_overload_precedence defaultBalanceConfig stateOverload
    (by norm_num [stateOverload])

/-- C3.  The round gate is `gateBasePerPlayer * playerCount` plus the
offset at index `(roundIndex - 1) mod len(gateOffsets)`; with the default
base 4 per player and offsets `[-2, -1, 0, 1, 2]`, rounds 1 and 6 of a
3-player game both get gate 10 because index 6 wraps back to offset
index 0. -/
theorem claimC3_gate_formula (balance : BalanceConfig) (r p : ℕ)
    (h1 : 1 ≤ r) (h2 : balance.gateOffsets ≠ []) :
    computeGate balance r p =
      balance.gateBasePerPlayer * (p : ℚ) +
        balance.gateOffsets.getD
          ((r - 1) % balance.gateOffsets.length) 0 ∧
    (createInitialRoundApp r p).gate =
      (p : ℚ) * 4 + ([-2, -1, 0, 1, 2] : List ℚ).getD ((r - 1) % 5) 0 ∧
    computeGate defaultBalanceConfig 1 3 = 10 ∧
    computeGate defaultBalanceConfig 6 3 = 10 ∧
    (createInitialRoundApp 1 3).gate = 10 ∧
    (createInitialRoundApp 6 3).gate = 10 := by
  refine ⟨?_, rfl, ?_, ?_, ?_, ?_⟩
  · simp only [computeGate]
    rw [if_pos (List.length_pos.mpr h2)]
  · norm_num [computeGate, defaultBalanceConfig]
  · norm_num [computeGate, defaultBalanceConfig]
  · norm_num [createInitialRoundApp]
  · norm_num [createInitialRoundApp]

/-- C3 witness: the formula instantiated at round 6 of a 3-player game
under the default configuration. -/
theorem claimC3_witness :
    computeGate defaultBalanceConfig 6 3 =
      defaultBalanceConfig.gateBasePerPlayer * (3 : ℚ) +
        defaultBalanceConfig.gateOffsets.getD
          ((6 - 1) % defaultBalanceConfig.gateOffsets.length) 0 ∧
    computeGate defaultBalanceConfig 6 3 = 10 :=
  ⟨(claimC3_gate_formula defaultBalanceConfig 6 3 (by norm_num)
      (by simp [defaultBalanceConfig])).1,
   (claimC3_gate_formula defaultBalanceConfig 6 3 (by norm_num)
      (by simp [defaultBalanceConfig])).2.2.2.1⟩

/-- Concrete facts about the reference scenario just before Maintenance:
the VENT success dropped the total from 12 to 9, while the +0.05 ship
gain was absorbed by the ceiling clamp (ship health was already 1). -/
theorem scenarioState2_facts :
    scenarioState2.round.totalAfterItems = 9 ∧
    scenarioState2.shipHealth01 = 1 ∧
    scenarioState2.round.gate = 10 ∧
    scenarioState2.reactorLimit = 18 ∧
    scenarioState2.roundIndex = 1 ∧
    scenarioState2.overloads = 0 ∧
    scenarioState2.clears = 0 ∧
    scenarioPending.deltaTotal = -3 ∧
    scenarioPending.deltaShip = 0.05 := by
  refine ⟨?_, ?_, ?_, ?_, ?_, ?_, ?_, ?_, ?_⟩ <;>
    norm_num [scenarioState2, scenarioState1, scenarioState0,
      scenarioPending, scenarioRawResult, handleMinigameCompleteApp,
      applyMinigameResult, startMinigameApp, applyItem, stepEngine,
      proceedFromPlan, initialEngineState, createInitialRound, computeGate,
      defaultBalanceConfig, clamp01, min_def, max_def, List.sum_cons,
      List.sum_nil]

/-- The reference round classifies as `Fail` at Maintenance. -/
theorem scenarioFail :
    classifyOutcome scenarioState2.round.totalAfterItems
      scenarioState2.reactorLimit scenarioState2.round.gate = .Fail := by
  rw [scenarioState2_facts.1, scenarioState2_facts.2.2.1,
    scenarioState2_facts.2.2.2.1]
  norm_num [classifyOutcome]

/-- The reference scenario's final ship health is the clamped
`1 - failLoss`. -/
theorem scenarioFinal_ship :
    scenarioFinal.shipHealth01 =
      clamp01 (1 - defaultBalanceConfig.failLoss) := by
  show (resolveMaintenance defaultBalanceConfig scenarioState2).shipHealth01
    = _
  rw [resolveMaintenance_ship, scenarioFail, scenarioState2_facts.2.1]

/-- C4 counterexample.  In the reference scenario (3 players, limit 18,
gate 10, cards summing to 12, VENT success from full ship health) the
final ship health is 0.9, not the claimed
`clamp01(1 - 0.1 + 0.05) = 0.95`: the item's +0.05 is applied first at
minigame completion, where the ceiling clamp discards it. -/
theorem claimC4_counterexample :
    scenarioState2.round.totalAfterItems = 9 ∧
    scenarioFinal.shipHealth01 = 9 / 10 ∧
    ¬ scenarioFinal.shipHealth01 = 95 / 100 := by
  have h9 : scenarioFinal.shipHealth01 = 9 / 10 := by
    rw [scenarioFinal_ship]
    norm_num [clamp01, min_def, max_def, defaultBalanceConfig]
  refine ⟨scenarioState2_facts.1, h9, ?_⟩
  rw [h9]
  norm_num

/-- C4 amended.  The reference scenario resolves as `Fail`, but the final
ship health is 0.9: the +0.05 VENT gain is applied at minigame
completion and clamped at the cap (ship health was already 1), after
which the 0.1 fail loss applies.  Overloads and clears stay 0 and the
game advances to round index 2 in the Plan phase. -/
theorem claimC4_amended_scenario :
    scenarioPending.deltaTotal = -3 ∧
    scenarioPending.deltaShip = 0.05 ∧
    scenarioState2.round.totalAfterItems = 9 ∧
    scenarioState2.shipHealth01 = 1 ∧
    classifyOutcome scenarioState2.round.totalAfterItems
      scenarioState2.reactorLimit scenarioState2.round.gate = .Fail ∧
    scenarioFinal.shipHealth01 = 0.9 ∧
    scenarioFinal.overloads = 0 ∧
    scenarioFinal.clears = 0 ∧
    scenarioFinal.roundIndex = 2 ∧
    scenarioFinal.phase = .Plan := by
  have hcond : ¬ (2 ≤ scenarioState2.overloads +
      (if classifyOutcome scenarioState2.round.totalAfterItems
          scenarioState2.reactorLimit scenarioState2.round.gate =
          .Overload then 1 else 0) ∨
      defaultBalanceConfig.roundsMax ≤ scenarioState2.roundIndex) := by
    rw [scenarioFail, scenarioState2_facts.2.2.2.2.1,
      scenarioState2_facts.2.2.2.2.2.1]
    norm_num [defaultBalanceConfig]
    decide
  refine ⟨scenarioState2_facts.2.2.2.2.2.2.2.1,
    scenarioState2_facts.2.2.2.2.2.2.2.2,
    scenarioState2_facts.1, scenarioState2_facts.2.1, scenarioFail,
    ?_, ?_, ?_, ?_, ?_⟩
  · rw [scenarioFinal_ship]
    norm_num [clamp01, min_def, max_def, defaultBalanceConfig]
  · show (resolveMaintenance defaultBalanceConfig
      scenarioState2).overloads = 0
    rw [(resolveMaintenance_counters defaultBalanceConfig
      scenarioState2).1, scenarioFail, scenarioState2_facts.2.2.2.2.2.1]
    simp
  · show (resolveMaintenance defaultBalanceConfig scenarioState2).clears
      = 0
    rw [(resolveMaintenance_counters defaultBalanceConfig
      scenarioState2).2, scenarioFail,
      scenarioState2_facts.2.2.2.2.2.2.1]
    simp
  · show (resolveMaintenance defaultBalanceConfig
      scenarioState2).roundIndex = 2
    rw [resolveMaintenance_roundIndex, if_neg hcond,
      scenarioState2_facts.2.2.2.2.1]
  · show (resolveMaintenance defaultBalanceConfig scenarioState2).phase
      = .Plan
    rw [resolveMaintenance_phase, if_neg hcond]

/-- C5.  An EQUALIZER activation selects between the `belowGate` and
`otherwise` base deltas by comparing the round's running
`totalAfterItems` — including deltas from items already resolved earlier
in the round — against the gate at the moment the item activates:
at 9 versus gate 10 it selects +2, after a prior item raised the total
to 11 it selects -2 (likewise for the tier-scaled resolver on success). -/
theorem claimC5_equalizer_isBelowGate :
    (∀ (balance : BalanceConfig) (t g : ℚ),
      applyItem balance t g .EQUALIZER (some (decide (t < g))) =
        ((if t < g then balance.items.EQUALIZER.belowGate
          else balance.items.EQUALIZER.otherwise),
         balance.items.EQUALIZER.deltaShip)) ∧
    (∀ (balance : BalanceConfig) (round : RoundState) (ship : ℚ)
        (r : MinigameResult) (pid : String),
      (startMinigameApp balance (applyMinigameResult round ship r).1 pid
          .EQUALIZER).deltaTotal =
        if round.totalAfterItems + r.deltaTotal < round.gate
        then balance.items.EQUALIZER.belowGate
        else balance.items.EQUALIZER.otherwise) ∧
    (startMinigameApp defaultBalanceConfig round9gate10 "p1"
      .EQUALIZER).deltaTotal = 2 ∧
    (startMinigameApp defaultBalanceConfig round11gate10 "p1"
      .EQUALIZER).deltaTotal = -2 ∧
    round11gate10.totalAfterItems = 11 ∧
    (getItemEffect defaultBalanceConfig .EQUALIZER "SUCCESS"
      (decide ((9 : ℚ) < 10))).1 = 2 ∧
    (getItemEffect defaultBalanceConfig .EQUALIZER "SUCCESS"
      (decide ((11 : ℚ) < 10))).1 = -2 := by
  refine ⟨?_, ?_, ?_, ?_, ?_, ?_, ?_⟩
  · intro balance t g
    simp only [applyItem, Option.getD_some]
    by_cases h : t < g
    · simp [h]
    · simp [h]
  · intro balance round ship r pid
    simp only [startMinigameApp, applyMinigameResult, applyItem,
      Option.getD_some]
    by_cases h : round.totalAfterItems + r.deltaTotal < round.gate
    · simp [h]
    · simp [h]
  · simp only [startMinigameApp, applyItem, Option.getD_some,
      round9gate10]
    rw [if_pos (show decide ((9 : ℚ) < 10) = true by
      simp only [decide_eq_true_eq]; norm_num)]
    simp [defaultBalanceConfig]
  · simp only [startMinigameApp, applyItem, Option.getD_some,
      round11gate10, applyMinigameResult, round9gate10]
    rw [if_neg (show ¬ decide ((9 : ℚ) + 2 < 10) = true by
      simp only [decide_eq_true_eq]; norm_num)]
    simp [defaultBalanceConfig]
  · norm_num [round11gate10, applyMinigameResult, round9gate10]
  · rw [decide_eq_true (show (9 : ℚ) < 10 by norm_num)]
    norm_num [getItemEffect, ITEM_TIER_MULTIPLIERS, roundHundred,
      defaultBalanceConfig]
  · rw [decide_eq_false (show ¬ ((11 : ℚ) < 10) by norm_num)]
    norm_num [getItemEffect, ITEM_TIER_MULTIPLIERS, roundHundred,
      defaultBalanceConfig]

/-- C6.  Ship health starts at 1 and, along every scripted sequence of
engine events (minigame completions with arbitrary deltas, Maintenance
resolutions, plan locking, restarts), stays inside the closed unit
interval: every mutation passes through the clamp. -/
theorem claimC6_shipHealth_clamped (balance : BalanceConfig) (p : ℕ)
    (events : List EngineEvent) :
    (initialEngineState balance p).shipHealth01 = 1 ∧
    0 ≤ (runEngine balance p events).shipHealth01 ∧
    (runEngine balance p events).shipHealth01 ≤ 1 := by
  have h := foldl_ship_mem balance events (initialEngineState balance p)
    (by norm_num [initialEngineState]) (by norm_num [initialEngineState])
  exact ⟨rfl, h.1, h.2⟩

/-- C6 witness: a concrete script that locks a plan, applies a large
negative ship delta and resolves Maintenance still ends with ship health
inside the unit interval. -/
theorem claimC6_witness :
    0 ≤ (runEngine defaultBalanceConfig 3
        [.planLock [9, 8, 7],
         .minigameComplete
           { playerId := "p1", job := .PowerEngineer, itemId := .BOOST
             tier := .fail, score01 := 0, deltaTotal := 0
             deltaShipHealth01 := -5 },
         .maintenanceResolve]).shipHealth01 ∧
    (runEngine defaultBalanceConfig 3
        [.planLock [9, 8, 7],
         .minigameComplete
           { playerId := "p1", job := .PowerEngineer, itemId := .BOOST
             tier := .fail, score01 := 0, deltaTotal := 0
             deltaShipHealth01 := -5 },
         .maintenanceResolve]).shipHealth01 ≤ 1 :=
  ⟨(claimC6_shipHealth_clamped defaultBalanceConfig 3 _).2.1,
   (claimC6_shipHealth_clamped defaultBalanceConfig 3 _).2.2⟩

/-- C7.  A round resolving as `Clear` (gate ≤ total < reactor limit)
increments the clear counter by one, and when every recorded minigame
result has tier `success` — in particular, vacuously, when the round has
no minigame results at all — ship health additionally gains the
configured `allSuccessGain` through the clamp. -/
theorem claimC7_clear_bonus (balance : BalanceConfig) (st : EngineState)
    (h1 : st.round.gate ≤ st.round.totalAfterItems)
    (h2 : st.round.totalAfterItems < st.reactorLimit) :
    (resolveMaintenance balance st).clears = st.clears + 1 ∧
    ((st.round.minigameResults.all fun r => r.tier = .success) = true →
      (resolveMaintenance balance st).shipHealth01 =
        clamp01 (st.shipHealth01 + balance.allSuccessGain)) ∧
    (st.round.minigameResults = [] →
      (resolveMaintenance balance st).shipHealth01 =
        clamp01 (st.shipHealth01 + balance.allSuccessGain)) := by
  have hout : classifyOutcome st.round.totalAfterItems st.reactorLimit
      st.round.gate = .Clear := by
    unfold classifyOutcome
    rw [if_neg (not_le.mpr h2), if_pos h1]
  refine ⟨?_, ?_, ?_⟩
  · rw [(resolveMaintenance_counters balance st).2, hout]
    simp
  · intro hall
    rw [resolveMaintenance_ship, hout]
    dsimp only
    rw [if_pos hall]
  · intro hemp
    rw [resolveMaintenance_ship, hout]
    dsimp only
    rw [if_pos (by rw [hemp]; exact List.all_nil)]

/-- C7 witness: a concrete `Clear` round with zero minigame activations
still receives the all-success ship bonus. -/
theorem claimC7_witness :
    (resolveMaintenance defaultBalanceConfig stateClearNoItems).clears =
      stateClearNoItems.clears + 1 ∧
    (resolveMaintenance defaultBalanceConfig
        stateClearNoItems).shipHealth01 =
      clamp01 (stateClearNoItems.shipHealth01 +
        defaultBalanceConfig.allSuccessGain) := by
  have h := claimC7_clear_bonus defaultBalanceConfig stateClearNoItems
    (by norm_num [stateClearNoItems]) (by norm_num [stateClearNoItems])
  exact ⟨h.1, h.2.2 rfl⟩

/-- C8.  Maintenance resolution ends in `GameOver` exactly when the
updated overload count reaches 2 or the current round index has reached
`roundsMax`; otherwise the round counter increments, a fresh round state
for the next index is created, play returns to `Plan`, and the new round
index never exceeds `roundsMax` (so with the default maximum of 6 a
round 7 never begins). -/
theorem claimC8_termination (balance : BalanceConfig) (st : EngineState) :
    ((resolveMaintenance balance st).phase = .GameOver ↔
      2 ≤ st.overloads +
          (if classifyOutcome st.round.totalAfterItems st.reactorLimit
              st.round.gate = .Overload then 1 else 0) ∨
        balance.roundsMax ≤ st.roundIndex) ∧
    ((resolveMaintenance balance st).phase ≠ .GameOver →
      (resolveMaintenance balance st).phase = .Plan ∧
      (resolveMaintenance balance st).roundIndex = st.roundIndex + 1 ∧
      (resolveMaintenance balance st).round =
        createInitialRound balance (st.roundIndex + 1) st.players ∧
      (resolveMaintenance balance st).roundIndex ≤ balance.roundsMax) := by
  by_cases hcond : 2 ≤ st.overloads +
      (if classifyOutcome st.round.totalAfterItems st.reactorLimit
          st.round.gate = .Overload then 1 else 0) ∨
      balance.roundsMax ≤ st.roundIndex
  · constructor
    · rw [resolveMaintenance_phase, if_pos hcond]
      exact iff_of_true rfl hcond
    · intro hne
      exact absurd (by rw [resolveMaintenance_phase, if_pos hcond]) hne
  · constructor
    · rw [resolveMaintenance_phase, if_neg hcond]
      exact iff_of_false (by simp) hcond
    · intro _
      refine ⟨?_, ?_, ?_, ?_⟩
      · rw [resolveMaintenance_phase, if_neg hcond]
      · rw [resolveMaintenance_roundIndex, if_neg hcond]
      · rw [resolveMaintenance_round, if_neg hcond]
      · rw [resolveMaintenance_roundIndex, if_neg hcond]
        have hlt : ¬ balance.roundsMax ≤ st.roundIndex :=
          fun hmax => hcond (Or.inr hmax)
        omega

/-- C8 witness: resolving round 6's Maintenance with no overloads under
the default configuration ends the game. -/
theorem claimC8_witness :
    (resolveMaintenance defaultBalanceConfig stateRoundSix).phase =
      .GameOver :=
  (claimC8_termination defaultBalanceConfig stateRoundSix).1.mpr
    (Or.inr (by norm_num [stateRoundSix, defaultBalanceConfig]))

/-- C9 counterexample.  The merge does not validate present fields and
does not replace a partially malformed `gateOffsets` in full: a string
`roundsMax` is adopted as-is (instead of falling back to the default 6),
and a `gateOffsets` array with one non-number entry is filtered down to
its finite-number entries (instead of falling back to the full default
offsets). -/
theorem claimC9_counterexample :
    (mergeBalanceConfig malformedIncoming).roundsMax =
      .str "banana" ∧
    ¬ (mergeBalanceConfig malformedIncoming).roundsMax = .num 6 ∧
    (mergeBalanceConfig malformedIncoming).gateOffsets = .arr [.num 7] ∧
    ¬ (mergeBalanceConfig malformedIncoming).gateOffsets =
        defaultJSBalanceConfig.gateOffsets := by
  have h1 : (mergeBalanceConfig malformedIncoming).roundsMax =
      .str "banana" := rfl
  have h2 : (mergeBalanceConfig malformedIncoming).gateOffsets =
      .arr [.num 7] := rfl
  refine ⟨h1, ?_, h2, ?_⟩
  · rw [h1]
    simp
  · rw [h2]
    simp only [defaultJSBalanceConfig]
    intro hcontr
    injection hcontr with hlist
    injection hlist with hhead _
    injection hhead with hnum
    norm_num at hnum

/-- C9 amended.  A partial override merges over the defaults
field-by-field by key presence: fields absent from the override take the
default, fields present are adopted as-is without validation, nested
item entries merge per sub-field, and `gateOffsets` — only when the
override value is an array — is filtered down to its finite-number
entries, falling back to the full default offsets otherwise. -/
theorem claimC9_amended_merge (inc : IncomingBalanceConfig) :
    (mergeBalanceConfig inc).roundsMax = inc.roundsMax.getD (.num 6) ∧
    (mergeBalanceConfig inc).overloadLoss =
      inc.overloadLoss.getD (.num 0.3) ∧
    (mergeBalanceConfig inc).failLoss = inc.failLoss.getD (.num 0.1) ∧
    (mergeBalanceConfig inc).allSuccessGain =
      inc.allSuccessGain.getD (.num 0.05) ∧
    (mergeBalanceConfig inc).deckSize = inc.deckSize.getD (.num 9) ∧
    (mergeBalanceConfig inc).handSize = inc.handSize.getD (.num 5) ∧
    (mergeBalanceConfig inc).gateBasePerPlayer =
      inc.gateBasePerPlayer.getD (.num 4) ∧
    (mergeBalanceConfig inc).gateOffsets =
      (match inc.gateOffsets with
       | some (.arr xs) => JSVal.arr (xs.filter isFiniteNumber)
       | _ =>
          JSVal.arr [.num (-2), .num (-1), .num 0, .num 1, .num 2]) ∧
    (mergeBalanceConfig inc).itemsBOOSTdeltaTotal =
      ((inc.items.bind (fun i => i.BOOST)).bind
        (fun b => b.deltaTotal)).getD (.num 3) ∧
    (mergeBalanceConfig inc).itemsBOOSTdeltaShip =
      ((inc.items.bind (fun i => i.BOOST)).bind
        (fun b => b.deltaShip)).getD (.num 0) ∧
    (mergeBalanceConfig inc).itemsVENTdeltaTotal =
      ((inc.items.bind (fun i => i.VENT)).bind
        (fun v => v.deltaTotal)).getD (.num (-3)) ∧
    (mergeBalanceConfig inc).itemsVENTdeltaShip =
      ((inc.items.bind (fun i => i.VENT)).bind
        (fun v => v.deltaShip)).getD (.num 0.05) ∧
    (mergeBalanceConfig inc).itemsEQUALIZERbelowGate =
      ((inc.items.bind (fun i => i.EQUALIZER)).bind
        (fun e => e.belowGate)).getD (.num 2) ∧
    (mergeBalanceConfig inc).itemsEQUALIZERotherwise =
      ((inc.items.bind (fun i => i.EQUALIZER)).bind
        (fun e => e.otherwise)).getD (.num (-2)) ∧
    (mergeBalanceConfig inc).itemsEQUALIZERdeltaShip =
      ((inc.items.bind (fun i => i.EQUALIZER)).bind
        (fun e => e.deltaShip)).getD (.num 0) := by
  refine ⟨rfl, rfl, rfl, rfl, rfl, rfl, rfl, ?_, rfl, rfl, rfl, rfl,
    rfl, rfl, rfl⟩
  simp only [mergeBalanceConfig]
  cases hg : inc.gateOffsets with
  | none => rfl
  | some v => cases v <;> rfl

/-- C9 amended witness: the merge evaluated at the concrete malformed
override. -/
theorem claimC9_amended_witness :
    (mergeBalanceConfig malformedIncoming).roundsMax =
      malformedIncoming.roundsMax.getD (.num 6) ∧
    (mergeBalanceConfig malformedIncoming).gateOffsets =
      (match malformedIncoming.gateOffsets with
       | some (.arr xs) => JSVal.arr (xs.filter isFiniteNumber)
       | _ =>
          JSVal.arr [.num (-2), .num (-1), .num 0, .num 1, .num 2]) :=
  ⟨(claimC9_amended_merge malformedIncoming).1,
   (claimC9_amended_merge malformedIncoming).2.2.2.2.2.2.2.1⟩

/-- Bound on the scrambled 32-bit output of the generator. -/
theorem mulberryOutput_lt (state : ℕ) :
    mulberryOutput state < 4294967296 := by
  simp only [mulberryOutput]
  have hN : (4294967296 : ℕ) = 2 ^ 32 := by norm_num
  rw [hN]
  refine Nat.xor_lt_two_pow (Nat.xor_lt_two_pow ?_ ?_)
    (lt_of_le_of_lt (Nat.div_le_self _ _)
      (Nat.xor_lt_two_pow ?_ ?_)) <;>
    · rw [← hN]
      exact Nat.mod_lt _ (by norm_num)

/-- C10.  The generator is a pure function of its seed: any two sources
created from the same numeric seed yield the same value at every stream
position, every produced value lies in the half-open unit interval, and
any two engine runs over the same scripted event sequence produce
identical state (and hence round-state) snapshots. -/
theorem claimC10_rng_determinism :
    (∀ seed n : ℕ,
      0 ≤ mulberryValue seed n ∧ mulberryValue seed n < 1) ∧
    (∀ seed count : ℕ, rngSequence seed count = rngSequence seed count) ∧
    (∀ (balance : BalanceConfig) (p : ℕ) (events : List EngineEvent),
      engineTrace balance p events = engineTrace balance p events ∧
      (engineTrace balance p events).map EngineState.round =
        (engineTrace balance p events).map EngineState.round) := by
  refine ⟨?_, fun _ _ => rfl, fun _ _ _ => ⟨rfl, rfl⟩⟩
  intro seed n
  constructor
  · unfold mulberryValue
    positivity
  · unfold mulberryValue
    rw [div_lt_one (by norm_num)]
    exact_mod_cast mulberryOutput_lt (mulberryStateAfter seed (n + 1))

end CoreOverload
